import Mathlib

/-!
Shallow embedding of the forecasting and risk core of
`src/projet_git/dashboard.py`:

* `create_features`              (dashboard.py lines 87-121)
* `prepare_prediction_data`      (dashboard.py lines 123-156)
* `train_model_and_predict`      (dashboard.py lines 158-225)
* `calculate_volatility`         (dashboard.py lines 227-241)
* `calculate_var`                (dashboard.py lines 243-263)

Conventions of the embedding:

* A dataframe row of the raw `(Timestamp, Price)` data is a `PricePoint`.
  Timestamps are rational instants measured in hours, so that the code's
  `pd.Timedelta(hours=1)` is `+ 1`.
* The pandas `Series.dt` calendar accessors (`hour`, `dayofweek`, `quarter`,
  `month`, `year`, `dayofyear`, `day`, `isocalendar().week`) are abstracted
  as a record `Calendar` of functions of the timestamp.  No claim depends on
  the Gregorian calendar itself, so the theorems quantify over the calendar.
* Float `NaN` cells are modelled as `none : Option ℚ`; `dropna` keeps a row
  only when every cell is `some`.
* The fitted `RandomForestRegressor` is opaque machine learning; it is
  modelled as a parameter `fit : training set → (feature vector → ℚ)` over
  which the theorems quantify.  The evaluation-metrics computation (random
  train/test split, lines 211-223) is likewise opaque and is not part of any
  claim checked here; `train_model_and_predict` returns the forecast list,
  `none` standing for the code's `(None, None)`.
* `Series.std` (used by the rolling volatility) is the square root of the
  sample variance (`ddof = 1`).  Inside the feature table only the identity
  of the volatility cell matters to the claims, so the cell carries the
  rational sample variance (the square of the code's cell); the one place
  where a claim inspects the numeric value of a volatility, namely
  `calculate_volatility`, applies `Real.sqrt` exactly where the code does.
-/

namespace Dashboard

/-- One raw data row `(Timestamp, Price)`: the timestamp is a rational
instant measured in hours, the price a rational. -/
structure PricePoint where
  ts : ℚ
  price : ℚ
deriving DecidableEq, Inhabited

/-- The pandas `Series.dt` calendar accessors used by `create_features`,
abstracted as arbitrary functions of the timestamp. -/
structure Calendar where
  hour : ℚ → Int
  dayofweek : ℚ → Int
  quarter : ℚ → Int
  month : ℚ → Int
  year : ℚ → Int
  dayofyear : ℚ → Int
  dayofmonth : ℚ → Int
  weekofyear : ℚ → Int

/-- Arithmetic mean of a list (`Series.mean`). -/
def mean (xs : List ℚ) : ℚ := xs.sum / xs.length

/-- Sample variance with one delta degree of freedom: the square of the
pandas `Series.std` (`ddof = 1`). -/
def sampleVar (xs : List ℚ) : ℚ :=
  ((xs.map (fun x => (x - mean xs) ^ 2)).sum) / ((xs.length : ℚ) - 1)

/-- `numpy.percentile` with the default linear-interpolation method: with
`s` the ascending sort of the data and `h = q (n-1) / 100`, the result is
`s[⌊h⌋] + (h - ⌊h⌋) (s[⌊h⌋+1] - s[⌊h⌋])`. -/
def percentile (xs : List ℚ) (q : ℚ) : ℚ :=
  let s := xs.insertionSort (· ≤ ·)
  if s.length = 0 then 0
  else
    let h := q * ((s.length : ℚ) - 1) / 100
    let k : ℕ := (Int.floor h).toNat
    let a := s.getD k 0
    match s.get? (k + 1) with
    | some b => a + (h - (k : ℚ)) * (b - a)
    | none => a

/-- Cell `i` of `Series.pct_change(periods = p)` on the price column:
`price[i] / price[i-p] - 1` when `p ≤ i`, `NaN` (`none`) otherwise. -/
def pctChangeAt (p : ℕ) (ps : List ℚ) (i : ℕ) : Option ℚ :=
  if p ≤ i then some (ps.getD i 0 / ps.getD (i - p) 0 - 1) else none

/-- The whole `pct_change(1)` column, used as the return series by
`calculate_volatility` and `calculate_var` (dashboard.py lines 234, 250). -/
def pct_change_list (ps : List ℚ) : List (Option ℚ) :=
  (List.range ps.length).map (fun i => pctChangeAt 1 ps i)

/-- Cell `i` of `Series.rolling(window = w)` aggregated by `f`, with the
default `min_periods = w`: defined only when the trailing window ending at
`i` is complete and holds at least `w` non-`NaN` entries. -/
def rollingStatAt (w : ℕ) (f : List ℚ → ℚ) (xs : List (Option ℚ)) (i : ℕ) : Option ℚ :=
  if w ≤ i + 1 then
    let vals := ((xs.take (i + 1)).drop (i + 1 - w)).filterMap id
    if w ≤ vals.length then some (f vals) else none
  else none

/-- The whole rolling column. -/
def rollingStatList (w : ℕ) (f : List ℚ → ℚ) (xs : List (Option ℚ)) : List (Option ℚ) :=
  (List.range xs.length).map (fun i => rollingStatAt w f xs i)

/-- The 24 lag cells `lag_1h .. lag_24h` of row `i` (dashboard.py lines
102-103): `lag_kh = Price.shift(k)` at `i`, i.e. `price[i-k]` when `k ≤ i`. -/
def lagsAt (ps : List ℚ) (i : ℕ) : List (Option ℚ) :=
  (List.range 24).map (fun k => if k + 1 ≤ i then some (ps.getD (i - (k + 1)) 0) else none)

/-- A row of the dataframe built inside `create_features` before the final
`dropna`: original columns, calendar columns, the 24 lag columns, rolling
means over 6/12/24, the 24-window rolling volatility (stored squared, see
the header note), and the relative changes over 1/12/24. -/
structure RawFeatureRow where
  ts : ℚ
  price : ℚ
  hour : Int
  dayofweek : Int
  quarter : Int
  month : Int
  year : Int
  dayofyear : Int
  dayofmonth : Int
  weekofyear : Int
  lags : List (Option ℚ)
  rolling_mean_6h : Option ℚ
  rolling_mean_12h : Option ℚ
  rolling_mean_24h : Option ℚ
  volatility_24h : Option ℚ
  price_change_1h : Option ℚ
  price_change_12h : Option ℚ
  price_change_24h : Option ℚ
deriving DecidableEq

/-- Row `i` of the pre-`dropna` dataframe of `create_features`. -/
def rawRow (cal : Calendar) (df : List PricePoint) (i : ℕ) : RawFeatureRow :=
  let ps := df.map (·.price)
  let t := (df.getD i default).ts
  { ts := t
    price := ps.getD i 0
    hour := cal.hour t
    dayofweek := cal.dayofweek t
    quarter := cal.quarter t
    month := cal.month t
    year := cal.year t
    dayofyear := cal.dayofyear t
    dayofmonth := cal.dayofmonth t
    weekofyear := cal.weekofyear t
    lags := lagsAt ps i
    rolling_mean_6h := rollingStatAt 6 mean (ps.map some) i
    rolling_mean_12h := rollingStatAt 12 mean (ps.map some) i
    rolling_mean_24h := rollingStatAt 24 mean (ps.map some) i
    volatility_24h := rollingStatAt 24 sampleVar (ps.map some) i
    price_change_1h := pctChangeAt 1 ps i
    price_change_12h := pctChangeAt 12 ps i
    price_change_24h := pctChangeAt 24 ps i }

/-- Collapse a list of optional cells: `some` of the values when no cell is
`NaN`, `none` otherwise. -/
def allSome : List (Option ℚ) → Option (List ℚ)
  | [] => some []
  | none :: _ => none
  | some a :: rest => (allSome rest).map (a :: ·)

/-- A fully defined feature row, i.e. a row surviving the `dropna` of
`create_features` (dashboard.py line 119): every cell is a plain value. -/
structure FeatureRow where
  ts : ℚ
  price : ℚ
  hour : Int
  dayofweek : Int
  quarter : Int
  month : Int
  year : Int
  dayofyear : Int
  dayofmonth : Int
  weekofyear : Int
  lags : List ℚ
  rolling_mean_6h : ℚ
  rolling_mean_12h : ℚ
  rolling_mean_24h : ℚ
  volatility_24h : ℚ
  price_change_1h : ℚ
  price_change_12h : ℚ
  price_change_24h : ℚ
deriving DecidableEq, Inhabited

/-- The row filter of `df.dropna()`: keep the row exactly when none of its
cells is `NaN`. -/
def dropnaRow (r : RawFeatureRow) : Option FeatureRow :=
  match allSome r.lags, r.rolling_mean_6h, r.rolling_mean_12h, r.rolling_mean_24h,
        r.volatility_24h, r.price_change_1h, r.price_change_12h, r.price_change_24h with
  | some l, some m6, some m12, some m24, some v, some c1, some c12, some c24 =>
      some { ts := r.ts, price := r.price, hour := r.hour, dayofweek := r.dayofweek,
             quarter := r.quarter, month := r.month, year := r.year,
             dayofyear := r.dayofyear, dayofmonth := r.dayofmonth,
             weekofyear := r.weekofyear, lags := l,
             rolling_mean_6h := m6, rolling_mean_12h := m12, rolling_mean_24h := m24,
             volatility_24h := v,
             price_change_1h := c1, price_change_12h := c12, price_change_24h := c24 }
  | _, _, _, _, _, _, _, _ => none

/-- `create_features` (dashboard.py lines 87-121): build every row's
calendar/lag/rolling/volatility/change cells, then drop the rows holding a
`NaN`. -/
def create_features (cal : Calendar) (df : List PricePoint) : List FeatureRow :=
  (List.range df.length).filterMap (fun i => dropnaRow (rawRow cal df i))

/-- Trailing-window statistic of a complete window, the value a surviving
rolling cell carries. -/
def windowStat (w : ℕ) (f : List ℚ → ℚ) (ps : List ℚ) (i : ℕ) : ℚ :=
  f ((ps.take (i + 1)).drop (i + 1 - w))

/-- The value of row `i` of `create_features` for `24 ≤ i < df.length`,
i.e. the fully defined row the `dropna` keeps. -/
def featRow (cal : Calendar) (df : List PricePoint) (i : ℕ) : FeatureRow :=
  let ps := df.map (·.price)
  let t := (df.getD i default).ts
  { ts := t
    price := ps.getD i 0
    hour := cal.hour t
    dayofweek := cal.dayofweek t
    quarter := cal.quarter t
    month := cal.month t
    year := cal.year t
    dayofyear := cal.dayofyear t
    dayofmonth := cal.dayofmonth t
    weekofyear := cal.weekofyear t
    lags := (List.range 24).map (fun k => ps.getD (i - (k + 1)) 0)
    rolling_mean_6h := windowStat 6 mean ps i
    rolling_mean_12h := windowStat 12 mean ps i
    rolling_mean_24h := windowStat 24 mean ps i
    volatility_24h := windowStat 24 sampleVar ps i
    price_change_1h := ps.getD i 0 / ps.getD (i - 1) 0 - 1
    price_change_12h := ps.getD i 0 / ps.getD (i - 12) 0 - 1
    price_change_24h := ps.getD i 0 / ps.getD (i - 24) 0 - 1 }

/-- The 16-column feature vector `X` handed to the model (dashboard.py
lines 142-145). -/
structure PredVec where
  hour : Int
  dayofweek : Int
  quarter : Int
  month : Int
  dayofyear : Int
  dayofmonth : Int
  lag_1h : ℚ
  lag_12h : ℚ
  lag_24h : ℚ
  rolling_mean_6h : ℚ
  rolling_mean_12h : ℚ
  rolling_mean_24h : ℚ
  volatility_24h : ℚ
  price_change_1h : ℚ
  price_change_12h : ℚ
  price_change_24h : ℚ
deriving DecidableEq, Inhabited

/-- Select the 16 feature columns of a feature row (`df[features]`). -/
def toPredVec (r : FeatureRow) : PredVec :=
  { hour := r.hour
    dayofweek := r.dayofweek
    quarter := r.quarter
    month := r.month
    dayofyear := r.dayofyear
    dayofmonth := r.dayofmonth
    lag_1h := r.lags.getD 0 0
    lag_12h := r.lags.getD 11 0
    lag_24h := r.lags.getD 23 0
    rolling_mean_6h := r.rolling_mean_6h
    rolling_mean_12h := r.rolling_mean_12h
    rolling_mean_24h := r.rolling_mean_24h
    volatility_24h := r.volatility_24h
    price_change_1h := r.price_change_1h
    price_change_12h := r.price_change_12h
    price_change_24h := r.price_change_24h }

/-- The `target` column `df_features['Price'].shift(-24)` paired with its
row (dashboard.py line 132): the target of row `j` is the price of feature
row `j + 24` when that row exists, `NaN` otherwise. -/
def addTarget (dfF : List FeatureRow) : List (FeatureRow × Option ℚ) :=
  (List.range dfF.length).map (fun j => (dfF.getD j default, (dfF.get? (j + 24)).map (·.price)))

/-- `prepare_prediction_data` (dashboard.py lines 123-156): `None` when the
raw series has fewer than 50 points or no trainable row remains; otherwise
the training pairs `(X, y)`, the anchor feature vector `X_recent`, the
anchor timestamp, and the feature table. -/
def prepare_prediction_data (cal : Calendar) (df : List PricePoint) :
    Option (List (PredVec × ℚ) × PredVec × ℚ × List FeatureRow) :=
  if df.length < 50 then none
  else
    let dfF := create_features cal df
    let withT := addTarget dfF
    let dfTrain := withT.dropLast.filterMap (fun rt => rt.2.map (fun t => (toPredVec rt.1, t)))
    if dfTrain = [] then none
    else (dfF.getLast?).map (fun anchor => (dfTrain, toPredVec anchor, anchor.ts, dfF))

/-- One forecast row of `predictions_df` (dashboard.py lines 206-209). -/
structure ForecastPoint where
  ts : ℚ
  predicted_price : ℚ
deriving DecidableEq, Inhabited

/-- `PREDICTION_HOURS` (dashboard.py line 30). -/
def PREDICTION_HOURS : ℕ := 24

/-- The per-iteration update of `current_data` (dashboard.py lines
186-191): recompute the six calendar-derived entries from the advanced
timestamp, leaving every other entry as it was. -/
def updateCalendarFields (cal : Calendar) (t : ℚ) (cd : PredVec) : PredVec :=
  { cd with
    hour := cal.hour t
    dayofweek := cal.dayofweek t
    quarter := cal.quarter t
    month := cal.month t
    dayofyear := cal.dayofyear t
    dayofmonth := cal.dayofmonth t }

/-- The 24-step forecasting loop (dashboard.py lines 181-203): advance the
timestamp by one hour, refresh the calendar entries of the carried feature
vector, predict, append, repeat. -/
def forecastLoop (model : PredVec → ℚ) (cal : Calendar) :
    ℕ → ℚ → PredVec → List ForecastPoint
  | 0, _, _ => []
  | n + 1, curTs, cd =>
    let nextTs := curTs + 1
    let cd' := updateCalendarFields cal nextTs cd
    { ts := nextTs, predicted_price := model cd' } :: forecastLoop model cal n nextTs cd'

/-- `train_model_and_predict` (dashboard.py lines 158-225).  The random
forest fit is the opaque parameter `fit`; the result is the forecast list
`predictions_df`, with `none` standing for the code's `(None, None)`. -/
def train_model_and_predict (cal : Calendar)
    (fit : List (PredVec × ℚ) → PredVec → ℚ) (df : List PricePoint) :
    Option (List ForecastPoint) :=
  if df.isEmpty = true ∨ df.length < 50 then none
  else
    (prepare_prediction_data cal df).map (fun r =>
      let model := fit r.1
      forecastLoop model cal PREDICTION_HOURS r.2.2.1 r.2.1)

/-- `calculate_volatility` (dashboard.py lines 227-241): rolling sample
standard deviation of the `pct_change` returns over `min(window, len(df))`,
annualized by `sqrt 365`; the result is `NaN` (`none`) when the last rolling
cell is `NaN`, and `0` when fewer than 2 points are supplied. -/
noncomputable def calculate_volatility (df : List PricePoint) (window : ℕ := 14) : Option ℝ :=
  if df.length < 2 then some 0
  else
    match (rollingStatList (min window df.length) sampleVar
            (pct_change_list (df.map (·.price)))).getLast? with
    | none => some 0
    | some none => none
    | some (some v) => some (Real.sqrt v * Real.sqrt 365)

/-- `calculate_var` (dashboard.py lines 243-263): `0` when fewer than
`window` points (or fewer than 2 returns) are supplied, otherwise the
absolute value, as a percentage, of the `100 (1-confidence)`-th percentile
of the whole `pct_change` return distribution of the series. -/
def calculate_var (df : List PricePoint) (confidence : ℚ) (window : ℕ := 14) : ℚ :=
  if df.length < window then 0
  else
    let returns := (pct_change_list (df.map (·.price))).filterMap id
    if returns.length < 2 then 0
    else |percentile returns (100 * (1 - confidence)) * 100|

/-- Training example `j` of `prepare_prediction_data`: the feature vector of
feature row `j` paired with its target, the price of feature row `j + 24`
(series position `j + 48`). -/
def trainPair (cal : Calendar) (df : List PricePoint) (j : ℕ) : PredVec × ℚ :=
  (toPredVec (featRow cal df (j + 24)), (featRow cal df (j + 48)).price)

/-- The period-over-period returns of a series as the specification words
them (§4.2): `return[i] = price[i] / price[i-1] - 1`, one value per
consecutive pair. -/
def specReturns (df : List PricePoint) : List ℚ :=
  (List.range (df.length - 1)).map (fun j =>
    (df.getD (j + 1) default).price / (df.getD j default).price - 1)

/-- Formalisation of the Value-at-Risk claim's words: the percentile of the
TRAILING-`window` return distribution, and `0` whenever fewer than `window`
returns are available.  This is what the claim asserts `calculate_var`
computes; it is compared against what the code actually computes. -/
def trailing_claim_var (df : List PricePoint) (confidence : ℚ) (window : ℕ := 14) : ℚ :=
  let rets := specReturns df
  if rets.length < window then 0
  else |percentile (rets.drop (rets.length - window)) (100 * (1 - confidence)) * 100|

/-- A concrete calendar (hour count with 24-hour days, a Thursday epoch,
30-day months, 360-day years) used only to instantiate closed statements;
every theorem quantifies over the calendar, so nothing depends on this
choice. -/
def simpleCalendar : Calendar where
  hour t := Int.floor t % 24
  dayofweek t := (Int.floor t / 24 + 4) % 7
  quarter t := Int.floor t / 24 / 90 % 4 + 1
  month t := Int.floor t / 24 / 30 % 12 + 1
  year t := 1970 + Int.floor t / 24 / 360
  dayofyear t := Int.floor t / 24 % 360 + 1
  dayofmonth t := Int.floor t / 24 % 30 + 1
  weekofyear t := Int.floor t / 24 / 7 % 52 + 1

/-- A concrete fitted model used only to instantiate closed statements:
predicts the mean target of its training set. -/
def meanFit (train : List (PredVec × ℚ)) (_ : PredVec) : ℚ :=
  mean (train.map (·.2))

/-- 60 hourly points with price rising linearly from 100 to 159 (the spec's
example scenario). -/
def S60 : List PricePoint := (List.range 60).map (fun (i : ℕ) => ⟨(i : ℚ), 100 + (i : ℚ)⟩)

/-- 25 hourly points with price rising linearly from 100. -/
def S25 : List PricePoint := (List.range 25).map (fun (i : ℕ) => ⟨(i : ℚ), 100 + (i : ℚ)⟩)

/-- 24 hourly points, one short of the feature warm-up. -/
def S24 : List PricePoint := (List.range 24).map (fun (i : ℕ) => ⟨(i : ℚ), 100 + (i : ℚ)⟩)

/-- 10 hourly points, far below every data threshold. -/
def S10 : List PricePoint := (List.range 10).map (fun (i : ℕ) => ⟨(i : ℚ), 100 + (i : ℚ)⟩)

/-- 16 hourly points: a single 50% drop, then a constant price. -/
def S16 : List PricePoint :=
  (List.range 16).map (fun (i : ℕ) => ⟨(i : ℚ), if i = 0 then 100 else 50⟩)

/-- A constant-price series of 2 points. -/
def constSeries2 : List PricePoint := [⟨0, 100⟩, ⟨1, 100⟩]

/-- A constant-price series of 15 points. -/
def constSeries15 : List PricePoint := (List.range 15).map (fun (i : ℕ) => ⟨(i : ℚ), 100⟩)

/-! ### Generic list helpers -/

/-- `allSome` on a list with no `NaN` cell. -/
lemma allSome_map_some (xs : List ℚ) : allSome (xs.map some) = some xs := by
  induction xs with
  | nil => rfl
  | cons a t ih => simp [allSome, ih]

/-- `allSome` on a list holding a `NaN` cell. -/
lemma allSome_eq_none {xs : List (Option ℚ)} (h : none ∈ xs) : allSome xs = none := by
  induction xs with
  | nil => cases h
  | cons a t ih =>
    cases a with
    | none => rfl
    | some v =>
      rcases List.mem_cons.mp h with h' | h'
      · exact Option.noConfusion h'
      · simp [allSome, ih h']

/-- Dropping `NaN`s from a `NaN`-free column is the identity. -/
lemma filterMap_id_map_some (xs : List ℚ) : (xs.map some).filterMap id = xs := by
  induction xs with
  | nil => rfl
  | cons a t ih => simp [ih]

/-- Dropping `NaN`s from a constant `NaN`-free column. -/
lemma filterMap_id_replicate_some (n : ℕ) (c : ℚ) :
    (List.replicate n (some c)).filterMap id = List.replicate n c := by
  induction n with
  | zero => rfl
  | succ n ih => simp [List.replicate_succ, ih]

/-- Congruence for `filterMap` under pointwise agreement on the list. -/
lemma filterMap_congr_mem {α β : Type} (f g : α → Option β) :
    ∀ l : List α, (∀ a ∈ l, f a = g a) → l.filterMap f = l.filterMap g := by
  intro l h
  induction l with
  | nil => rfl
  | cons a t ih =>
    rw [List.filterMap_cons, List.filterMap_cons, h a (by simp),
        ih (fun x hx => h x (by simp [hx]))]

/-- A `filterMap` of an always-defined function is a `map`. -/
lemma filterMap_some_eq_map {α β : Type} (v : α → β) :
    ∀ l : List α, l.filterMap (fun a => some (v a)) = l.map v := by
  intro l
  induction l with
  | nil => rfl
  | cons a t ih => simp [List.filterMap_cons, ih]

/-- A guarded `filterMap` over an initial segment of the naturals keeps
exactly the indices below the bound. -/
lemma filterMap_if_lt {β : Type} (K : ℕ) (u : ℕ → β) :
    ∀ M, (List.range M).filterMap (fun j => if j < K then some (u j) else none) =
      (List.range (min K M)).map u := by
  intro M
  induction M with
  | zero => simp
  | succ M ih =>
    rw [List.range_succ, List.filterMap_append, ih]
    by_cases hK : M < K
    · rw [Nat.min_eq_right (by omega), Nat.min_eq_right (by omega),
          List.range_succ, List.map_append]
      simp [if_pos hK]
    · rw [Nat.min_eq_left (by omega), Nat.min_eq_left (by omega)]
      simp [if_neg hK]

/-- `dropLast` of an initial segment of the naturals. -/
lemma range_dropLast (m : ℕ) : (List.range m).dropLast = List.range (m - 1) := by
  rw [List.dropLast_eq_take, List.length_range, List.take_range, Nat.min_eq_left (by omega)]

/-! ### Characterization of `create_features` -/

/-- A complete rolling window over the `NaN`-free price column is defined and
carries the trailing-window statistic. -/
lemma rollingStatAt_map_some (w : ℕ) (f : List ℚ → ℚ) (ps : List ℚ) (i : ℕ)
    (hw : w ≤ i + 1) (hi : i < ps.length) :
    rollingStatAt w f (ps.map some) i = some (windowStat w f ps i) := by
  unfold rollingStatAt windowStat
  rw [if_pos hw]
  have htake : (ps.map some).take (i + 1) = (ps.take (i + 1)).map some :=
    (List.map_take ..).symm
  have hdrop : ((ps.take (i + 1)).map some).drop (i + 1 - w)
      = ((ps.take (i + 1)).drop (i + 1 - w)).map some := (List.map_drop ..).symm
  have hlen : ((ps.take (i + 1)).drop (i + 1 - w)).length = w := by
    rw [List.length_drop, List.length_take]
    omega
  simp only [htake, hdrop, filterMap_id_map_some, hlen, le_refl, if_true]

/-- The value of a `pct_change` cell with enough history. -/
lemma pctChangeAt_of_le {p i : ℕ} (ps : List ℚ) (h : p ≤ i) :
    pctChangeAt p ps i = some (ps.getD i 0 / ps.getD (i - p) 0 - 1) := by
  unfold pctChangeAt
  rw [if_pos h]

/-- With at least 24 prior points every lag cell is defined. -/
lemma allSome_lagsAt (ps : List ℚ) (i : ℕ) (h : 24 ≤ i) :
    allSome (lagsAt ps i) =
      some ((List.range 24).map (fun k => ps.getD (i - (k + 1)) 0)) := by
  unfold lagsAt
  rw [List.map_congr_left
      (fun k hk => if_pos (by rw [List.mem_range] at hk; omega)),
      show ((List.range 24).map fun k => some (ps.getD (i - (k + 1)) 0))
        = ((List.range 24).map fun k => ps.getD (i - (k + 1)) 0).map some
        by rw [List.map_map]; rfl,
      allSome_map_some]

/-- With fewer than 24 prior points the deepest lag cell is `NaN`. -/
lemma lagsAt_has_none (ps : List ℚ) (i : ℕ) (h : i < 24) : none ∈ lagsAt ps i := by
  unfold lagsAt
  refine List.mem_map.mpr ⟨23, by simp, ?_⟩
  rw [if_neg (by omega)]

/-- Rows with at least 24 prior points survive the `dropna` with every cell
defined. -/
lemma dropnaRow_rawRow_of_ge (cal : Calendar) (df : List PricePoint) (i : ℕ)
    (h24 : 24 ≤ i) (hi : i < df.length) :
    dropnaRow (rawRow cal df i) = some (featRow cal df i) := by
  have hlen : i < (df.map (·.price)).length := by simpa using hi
  simp only [dropnaRow, rawRow, featRow]
  rw [allSome_lagsAt _ _ h24,
      rollingStatAt_map_some 6 mean _ i (by omega) hlen,
      rollingStatAt_map_some 12 mean _ i (by omega) hlen,
      rollingStatAt_map_some 24 mean _ i (by omega) hlen,
      rollingStatAt_map_some 24 sampleVar _ i (by omega) hlen,
      pctChangeAt_of_le _ (by omega : 1 ≤ i),
      pctChangeAt_of_le _ (by omega : 12 ≤ i),
      pctChangeAt_of_le _ (by omega : 24 ≤ i)]

/-- Rows with fewer than 24 prior points are removed by the `dropna`. -/
lemma dropnaRow_rawRow_of_lt (cal : Calendar) (df : List PricePoint) (i : ℕ)
    (h : i < 24) : dropnaRow (rawRow cal df i) = none := by
  unfold dropnaRow rawRow
  rw [allSome_eq_none (lagsAt_has_none _ _ h)]

/-- `create_features` over the first `m` positions. -/
lemma create_features_aux (cal : Calendar) (df : List PricePoint) :
    ∀ m, m ≤ df.length →
      (List.range m).filterMap (fun i => dropnaRow (rawRow cal df i)) =
        (List.range (m - 24)).map (fun j => featRow cal df (j + 24)) := by
  intro m
  induction m with
  | zero => intro _; rfl
  | succ m ih =>
    intro hm
    rw [List.range_succ, List.filterMap_append, ih (by omega)]
    by_cases h24 : 24 ≤ m
    · rw [show m + 1 - 24 = (m - 24) + 1 by omega, List.range_succ, List.map_append]
      simp [dropnaRow_rawRow_of_ge cal df m h24 (by omega), show m - 24 + 24 = m by omega]
    · rw [show m + 1 - 24 = 0 by omega, show m - 24 = 0 by omega]
      simp [dropnaRow_rawRow_of_lt cal df m (by omega)]

/-- `create_features` keeps exactly the rows from position 24 on, each row
fully defined. -/
lemma create_features_eq (cal : Calendar) (df : List PricePoint) :
    create_features cal df =
      (List.range (df.length - 24)).map (fun j => featRow cal df (j + 24)) :=
  create_features_aux cal df df.length le_rfl

/-- Row count of the feature table. -/
lemma create_features_length (cal : Calendar) (df : List PricePoint) :
    (create_features cal df).length = df.length - 24 := by
  rw [create_features_eq, List.length_map, List.length_range]

/-- An in-range `getElem?` is the `some` of the corresponding `getD`. -/
lemma getElem?_eq_getD {α : Type} [Inhabited α] (l : List α) (i : ℕ) (h : i < l.length) :
    l[i]? = some (l.getD i default) := by
  rw [List.getD_eq_getElem?_getD, List.getElem?_eq_getElem h]
  rfl

/-- The timestamp of a kept feature row is the timestamp of its source
position. -/
lemma featRow_ts (cal : Calendar) (df : List PricePoint) (i : ℕ) :
    (featRow cal df i).ts = (df.getD i default).ts := rfl

/-- The feature table lists the input timestamps from position 24 on, in
input order. -/
lemma create_features_map_ts (cal : Calendar) (df : List PricePoint) :
    (create_features cal df).map FeatureRow.ts = (df.map PricePoint.ts).drop 24 := by
  rw [create_features_eq, List.map_map]
  apply List.ext_getElem?
  intro j
  rw [List.getElem?_drop]
  by_cases hj : j < df.length - 24
  · rw [List.getElem?_map, List.getElem?_range hj, List.getElem?_map,
        getElem?_eq_getD df (24 + j) (by omega), Nat.add_comm 24 j]
    simp [featRow_ts]
  · rw [List.getElem?_map, List.getElem?_map,
        List.getElem?_eq_none (by rw [List.length_range]; omega),
        List.getElem?_eq_none (by omega : df.length ≤ 24 + j)]
    rfl

/-- The anchor: the last feature row is the row of the last input position. -/
lemma create_features_getLast (cal : Calendar) (df : List PricePoint)
    (h : 25 ≤ df.length) :
    (create_features cal df).getLast? = some (featRow cal df (df.length - 1)) := by
  rw [create_features_eq, List.getLast?_eq_getElem?, List.length_map, List.length_range,
      List.getElem?_map, List.getElem?_range (by omega : df.length - 24 - 1 < df.length - 24)]
  show some (featRow cal df (df.length - 24 - 1 + 24)) = some (featRow cal df (df.length - 1))
  rw [show df.length - 24 - 1 + 24 = df.length - 1 by omega]

/-- The `target` column pairs feature row `j` with the price of feature row
`j + 24` when it exists. -/
lemma addTarget_eq (cal : Calendar) (df : List PricePoint) :
    addTarget (create_features cal df) =
      (List.range (df.length - 24)).map (fun j =>
        (featRow cal df (j + 24),
         if j + 24 < df.length - 24 then some ((featRow cal df (j + 48)).price)
         else none)) := by
  unfold addTarget
  rw [create_features_length]
  apply List.map_congr_left
  intro j hj
  rw [List.mem_range] at hj
  have h1 : (create_features cal df).getD j default = featRow cal df (j + 24) := by
    rw [List.getD_eq_getElem?_getD, create_features_eq, List.getElem?_map,
        List.getElem?_range hj]
    rfl
  have h2 : (create_features cal df).get? (j + 24) =
      if j + 24 < df.length - 24 then some (featRow cal df (j + 48)) else none := by
    rw [List.get?_eq_getElem?, create_features_eq, List.getElem?_map]
    by_cases hc : j + 24 < df.length - 24
    · rw [List.getElem?_range hc, if_pos hc, show j + 24 + 24 = j + 48 by omega]
      rfl
    · rw [List.getElem?_eq_none (by rw [List.length_range]; omega), if_neg hc]
      rfl
  rw [h1, h2]
  by_cases hc : j + 24 < df.length - 24
  · rw [if_pos hc, if_pos hc]
    rfl
  · rw [if_neg hc, if_neg hc]
    rfl

/-- The training rows kept by `prepare_prediction_data`: one per feature row
with a defined look-ahead target, the anchor row excluded. -/
lemma dfTrain_eq (cal : Calendar) (df : List PricePoint) :
    (addTarget (create_features cal df)).dropLast.filterMap
        (fun rt => rt.2.map (fun t => (toPredVec rt.1, t))) =
      (List.range (df.length - 48)).map (trainPair cal df) := by
  rw [addTarget_eq, ← List.map_dropLast, range_dropLast, List.filterMap_map]
  rw [filterMap_congr_mem _
      (fun j => if j < df.length - 48 then some (trainPair cal df j) else none) _
      (fun j _ => by
        have hiff : j + 24 < df.length - 24 ↔ j < df.length - 48 := by omega
        by_cases hc : j < df.length - 48
        · simp [Function.comp, hiff, hc, trainPair]
        · simp [Function.comp, hiff, hc])]
  rw [filterMap_if_lt, Nat.min_eq_left (by omega)]

/-- `prepare_prediction_data` on a series of at least 50 points. -/
lemma prepare_eq (cal : Calendar) (df : List PricePoint) (h : 50 ≤ df.length) :
    prepare_prediction_data cal df =
      some ((List.range (df.length - 48)).map (trainPair cal df),
            toPredVec (featRow cal df (df.length - 1)),
            (featRow cal df (df.length - 1)).ts,
            create_features cal df) := by
  simp only [prepare_prediction_data]
  rw [if_neg (by omega : ¬ df.length < 50), dfTrain_eq cal df,
      if_neg (by
        intro he
        have : df.length - 48 = 0 := by
          simpa [List.map_eq_nil_iff, List.range_eq_nil] using he
        omega),
      create_features_getLast cal df (by omega)]
  rfl

/-- Refreshing the calendar entries twice is refreshing them once with the
later timestamp. -/
lemma updateCalendarFields_comp (cal : Calendar) (t t' : ℚ) (cd : PredVec) :
    updateCalendarFields cal t' (updateCalendarFields cal t cd) =
      updateCalendarFields cal t' cd := rfl

/-- Closed form of the forecasting loop: step `k` forecasts at `t + k + 1`
from the anchor vector with only its calendar entries refreshed. -/
lemma forecastLoop_eq (model : PredVec → ℚ) (cal : Calendar) :
    ∀ (n : ℕ) (t : ℚ) (cd : PredVec),
      forecastLoop model cal n t cd =
        (List.range n).map (fun k =>
          { ts := t + ((k : ℚ) + 1),
            predicted_price :=
              model (updateCalendarFields cal (t + ((k : ℚ) + 1)) cd) }) := by
  intro n
  induction n with
  | zero => intro t cd; rfl
  | succ n ih =>
    intro t cd
    rw [List.range_succ_eq_map]
    show ({ ts := t + 1,
            predicted_price := model (updateCalendarFields cal (t + 1) cd) } :
          ForecastPoint) ::
        forecastLoop model cal n (t + 1) (updateCalendarFields cal (t + 1) cd) = _
    rw [ih, List.map_cons, List.map_map]
    congr 1
    · show _ = ForecastPoint.mk (t + ((0 : ℕ) + 1 : ℚ))
        (model (updateCalendarFields cal (t + ((0 : ℕ) + 1 : ℚ)) cd))
      norm_num
    · apply List.map_congr_left
      intro k _
      simp only [Function.comp_apply]
      have harg : (t + 1) + ((k : ℚ) + 1) = t + (((k + 1 : ℕ) : ℚ) + 1) := by
        push_cast
        ring
      rw [updateCalendarFields_comp, harg]

/-- `train_model_and_predict` on a series of at least 50 points. -/
lemma train_eq (cal : Calendar) (fit : List (PredVec × ℚ) → PredVec → ℚ)
    (df : List PricePoint) (h : 50 ≤ df.length) :
    train_model_and_predict cal fit df =
      some (forecastLoop (fit ((List.range (df.length - 48)).map (trainPair cal df)))
        cal PREDICTION_HOURS ((featRow cal df (df.length - 1)).ts)
        (toPredVec (featRow cal df (df.length - 1)))) := by
  unfold train_model_and_predict
  rw [if_neg (by
        intro hor
        rcases hor with he | hl
        · rw [List.isEmpty_iff] at he
          rw [he] at h
          simp at h
        · omega),
      prepare_eq cal df h]
  rfl

/-! ### Risk metrics on constant series -/

/-- `getD` from a list whose members are all zero. -/
lemma getD_zero_of_all_zero {l : List ℚ} (h : ∀ x ∈ l, x = 0) (k : ℕ) :
    l.getD k 0 = 0 := by
  rw [List.getD_eq_getElem?_getD]
  rcases hk : l[k]? with _ | v
  · rfl
  · simpa using h v (List.getElem?_mem hk)

/-- Any percentile of an all-zero sample is zero. -/
lemma percentile_of_zeros {xs : List ℚ} (h : ∀ x ∈ xs, x = 0) (q : ℚ) :
    percentile xs q = 0 := by
  have hs : ∀ x ∈ xs.insertionSort (· ≤ ·), x = 0 := fun x hx =>
    h x ((List.perm_insertionSort (· ≤ ·) xs).mem_iff.mp hx)
  unfold percentile
  by_cases h0 : (xs.insertionSort (· ≤ ·)).length = 0
  · simp only [if_pos h0]
  · simp only [if_neg h0]
    have ha := getD_zero_of_all_zero hs
      ((Int.floor (q * (((xs.insertionSort (· ≤ ·)).length : ℚ) - 1) / 100)).toNat)
    rcases hk : (xs.insertionSort (· ≤ ·)).get?
        ((Int.floor (q * (((xs.insertionSort (· ≤ ·)).length : ℚ) - 1) / 100)).toNat + 1)
      with _ | b
    · simp only [hk, ha]
    · have hb : b = 0 := hs b (List.get?_mem hk)
      simp only [hk, ha, hb]
      ring

/-- The price column of a constant-price series. -/
lemma getD_price_const {df : List PricePoint} {c : ℚ}
    (h : ∀ q ∈ df, q.price = c) {i : ℕ} (hi : i < df.length) :
    (df.map (·.price)).getD i 0 = c := by
  rw [List.getD_eq_getElem?_getD, List.getElem?_map, List.getElem?_eq_getElem hi]
  simpa using h _ (List.getElem_mem hi)

/-- On a constant-price series every defined return is zero. -/
lemma pct_change_list_const {df : List PricePoint} {c : ℚ} (hc : c ≠ 0)
    (h : ∀ q ∈ df, q.price = c) :
    pct_change_list (df.map (·.price)) =
      (List.range df.length).map (fun i => if 1 ≤ i then some 0 else none) := by
  unfold pct_change_list
  rw [List.length_map]
  apply List.map_congr_left
  intro i hi
  rw [List.mem_range] at hi
  by_cases h1 : 1 ≤ i
  · rw [if_pos h1]
    unfold pctChangeAt
    rw [if_pos h1, getD_price_const h hi,
        getD_price_const h (by omega : i - 1 < df.length), div_self hc, sub_self]
  · rw [if_neg h1]
    unfold pctChangeAt
    rw [if_neg h1]

/-- A rolling cell over a window of constant defined values. -/
lemma rollingStatAt_const (w : ℕ) (f : List ℚ → ℚ) (xs : List (Option ℚ)) (i : ℕ)
    (c : ℚ) (hw : w ≤ i + 1) (hi : i < xs.length)
    (hall : ∀ j, i + 1 - w ≤ j → j < i + 1 → xs[j]? = some (some c)) :
    rollingStatAt w f xs i = some (f (List.replicate w c)) := by
  unfold rollingStatAt
  rw [if_pos hw]
  have hslice : (xs.take (i + 1)).drop (i + 1 - w) = List.replicate w (some c) := by
    apply List.ext_getElem?
    intro j
    rw [List.getElem?_drop, List.getElem?_take, List.getElem?_replicate]
    by_cases hj : j < w
    · rw [if_pos (by omega : i + 1 - w + j < i + 1), if_pos hj]
      exact hall _ (by omega) (by omega)
    · rw [if_neg (by omega : ¬ i + 1 - w + j < i + 1), if_neg hj]
  rw [hslice, filterMap_id_replicate_some]
  simp

/-- The last cell of a rolling column. -/
lemma rollingStatList_getLast (w : ℕ) (f : List ℚ → ℚ) (xs : List (Option ℚ))
    (h : xs ≠ []) :
    (rollingStatList w f xs).getLast? =
      some (rollingStatAt w f xs (xs.length - 1)) := by
  unfold rollingStatList
  rw [List.getLast?_eq_getElem?, List.length_map, List.length_range,
      List.getElem?_map, List.getElem?_range (by
        have := List.length_pos.mpr h
        omega)]
  rfl

/-- The return column has one cell per raw point. -/
lemma pct_change_list_length (df : List PricePoint) :
    (pct_change_list (df.map (·.price))).length = df.length := by
  unfold pct_change_list
  rw [List.length_map, List.length_range, List.length_map]

/-- Dropping the `NaN`s of the constant return column leaves the zero
returns. -/
lemma filterMap_if_one_le (c : ℚ) :
    ∀ n, ((List.range n).map (fun i => if 1 ≤ i then some c else none)).filterMap id
      = List.replicate (n - 1) c := by
  intro n
  induction n with
  | zero => rfl
  | succ n ih =>
    rw [List.range_succ, List.map_append, List.filterMap_append, ih]
    by_cases h1 : 1 ≤ n
    · rw [show n + 1 - 1 = (n - 1) + 1 by omega, List.replicate_succ']
      simp [h1]
    · have : n = 0 := by omega
      subst this
      simp

/-- `calculate_volatility` on a constant-price series of at least
`window + 1 = 15` points is exactly zero. -/
lemma calculate_volatility_const (df : List PricePoint) (c : ℚ) (hc : c ≠ 0)
    (h : ∀ q ∈ df, q.price = c) (hlen : 15 ≤ df.length) :
    calculate_volatility df = some 0 := by
  unfold calculate_volatility
  rw [if_neg (by omega : ¬ df.length < 2)]
  have hne : pct_change_list (df.map (·.price)) ≠ [] := by
    intro he
    have := pct_change_list_length df
    rw [he] at this
    simp at this
    omega
  rw [rollingStatList_getLast _ _ _ hne, pct_change_list_length df,
      Nat.min_eq_left (by omega : 14 ≤ df.length)]
  rw [rollingStatAt_const 14 sampleVar _ (df.length - 1) 0 (by omega)
        (by rw [pct_change_list_length]; omega)
        (fun j hj1 hj2 => by
          rw [pct_change_list_const hc h, List.getElem?_map,
              List.getElem?_range (by omega : j < df.length)]
          simp [show 1 ≤ j by omega])]
  have hvar : sampleVar (List.replicate 14 (0 : ℚ)) = 0 := by
    unfold sampleVar mean
    simp
  rw [hvar]
  simp

/-- `calculate_var` on a constant-price series of at least 15 points is
exactly zero at every confidence. -/
lemma calculate_var_const (df : List PricePoint) (c : ℚ) (hc : c ≠ 0) (conf : ℚ)
    (h : ∀ q ∈ df, q.price = c) (hlen : 15 ≤ df.length) :
    calculate_var df conf = 0 := by
  unfold calculate_var
  rw [if_neg (by omega : ¬ df.length < 14)]
  have hret : (pct_change_list (df.map (·.price))).filterMap id =
      List.replicate (df.length - 1) 0 := by
    rw [pct_change_list_const hc h, filterMap_if_one_le]
  rw [hret]
  simp only [List.length_replicate]
  rw [if_neg (by omega : ¬ df.length - 1 < 2),
      percentile_of_zeros (fun x hx => List.eq_of_mem_replicate hx)]
  simp

/-! ### The return column versus the specification's return list -/

/-- `getD` through the price column. -/
lemma getD_map_price (df : List PricePoint) (i : ℕ) (hi : i < df.length) :
    (df.map (·.price)).getD i 0 = (df.getD i default).price := by
  rw [List.getD_eq_getElem?_getD, List.getElem?_map, List.getElem?_eq_getElem hi,
      List.getD_eq_getElem?_getD, List.getElem?_eq_getElem hi]
  rfl

/-- Dropping the `NaN`s of the code's `pct_change` column yields exactly the
specification's return list: one `price[i]/price[i-1] - 1` per consecutive
pair. -/
lemma returns_eq (df : List PricePoint) :
    (pct_change_list (df.map (·.price))).filterMap id = specReturns df := by
  unfold pct_change_list specReturns
  rw [List.length_map]
  rcases Nat.eq_zero_or_pos df.length with h0 | hpos
  · rw [h0]
    rfl
  · rw [show df.length = (df.length - 1) + 1 by omega, List.range_succ_eq_map,
        List.map_cons, List.map_map, List.filterMap_cons, List.filterMap_map]
    have h00 : pctChangeAt 1 (df.map (·.price)) 0 = none := by
      unfold pctChangeAt
      rw [if_neg (by omega)]
    rw [h00]
    rw [show df.length - 1 + 1 - 1 = df.length - 1 by omega]
    rw [filterMap_congr_mem _
        (fun j => some ((df.getD (j + 1) default).price / (df.getD j default).price - 1)) _
        (fun j hj => by
          rw [List.mem_range] at hj
          simp only [Function.comp_apply, id_eq]
          unfold pctChangeAt
          rw [if_pos (by omega : 1 ≤ j + 1), show j + 1 - 1 = j by omega,
              getD_map_price df (j + 1) (by omega), getD_map_price df j (by omega)])]
    rw [filterMap_some_eq_map]
    rfl

/-- `drop` on an initial segment of the naturals. -/
lemma drop_range (n m : ℕ) :
    (List.range n).drop m = (List.range (n - m)).map (fun j => m + j) := by
  apply List.ext_getElem?
  intro j
  rw [List.getElem?_drop, List.getElem?_map]
  by_cases hj : j < n - m
  · rw [List.getElem?_range (by omega : m + j < n), List.getElem?_range hj]
    rfl
  · rw [List.getElem?_eq_none (by rw [List.length_range]; omega),
        List.getElem?_eq_none (by rw [List.length_range]; omega)]
    rfl

/-! ### Percentile evaluations for the counterexamples -/

/-- `insertionSort` fixes a constant list. -/
lemma insertionSort_replicate (n : ℕ) (c : ℚ) :
    (List.replicate n c).insertionSort (· ≤ ·) = List.replicate n c := by
  induction n with
  | zero => rfl
  | succ n ih =>
    rw [List.replicate_succ, List.insertionSort, ih]
    cases n with
    | zero => rfl
    | succ n =>
      rw [List.replicate_succ, List.orderedInsert, if_pos le_rfl, ← List.replicate_succ,
          ← List.replicate_succ]

/-- Sorting the return list of the Value-at-Risk counterexample: the single
negative return leads, the zero returns follow. -/
lemma insertionSort_S16_returns :
    ((-(1:ℚ)/2) :: List.replicate 14 0).insertionSort (· ≤ ·) =
      (-(1:ℚ)/2) :: List.replicate 14 0 := by
  rw [List.insertionSort, insertionSort_replicate,
      show (List.replicate 14 (0:ℚ)) = 0 :: List.replicate 13 0 from rfl,
      List.orderedInsert, if_pos (by norm_num)]

/-- The 5th percentile of the counterexample's return distribution:
interpolation between the sorted values `-1/2` and `0`. -/
lemma percentile_S16_returns :
    percentile ((-(1:ℚ)/2) :: List.replicate 14 0) 5 = -3/20 := by
  unfold percentile
  rw [insertionSort_S16_returns]
  simp only [List.length_cons, List.length_replicate]
  rw [if_neg (by norm_num)]
  rw [show ((14:ℕ) + 1 : ℕ) = 15 from rfl]
  rw [show (((15:ℕ)) : ℚ) = 15 by norm_num]
  rw [show (5:ℚ) * ((15:ℚ) - 1)/100 = 7/10 by norm_num]
  rw [show (⌊(7:ℚ)/10⌋).toNat = 0 by
        rw [Int.floor_eq_zero_iff.mpr ⟨by norm_num, by norm_num⟩]
        rfl]
  simp only [List.get?_cons_succ,
    show (List.replicate 14 (0:ℚ)) = 0 :: List.replicate 13 0 from rfl,
    List.get?_cons_zero, List.getD_cons_zero]
  push_cast
  norm_num

/-! ### Facts about the concrete series -/

lemma S60_length : S60.length = 60 := by
  unfold S60
  rw [List.length_map, List.length_range]

lemma S25_length : S25.length = 25 := by
  unfold S25
  rw [List.length_map, List.length_range]

lemma S24_length : S24.length = 24 := by
  unfold S24
  rw [List.length_map, List.length_range]

lemma S10_length : S10.length = 10 := by
  unfold S10
  rw [List.length_map, List.length_range]

lemma S16_length : S16.length = 16 := by
  unfold S16
  rw [List.length_map, List.length_range]

lemma S16_getD (i : ℕ) (hi : i < 16) :
    S16.getD i default = ⟨(i : ℚ), if i = 0 then 100 else 50⟩ := by
  unfold S16
  rw [List.getD_eq_getElem?_getD, List.getElem?_map,
      List.getElem?_range (by omega : i < 16)]
  rfl

/-- The specification-side return list of the Value-at-Risk counterexample:
one -50% return, then 14 zero returns. -/
lemma specReturns_S16 : specReturns S16 = (-(1:ℚ)/2) :: List.replicate 14 0 := by
  unfold specReturns
  rw [show S16.length - 1 = 15 by rw [S16_length]]
  apply List.ext_getElem?
  intro j
  rw [List.getElem?_map]
  rcases j with _ | j
  · rw [List.getElem?_range (by omega : 0 < 15),
        show ((-(1:ℚ)/2) :: List.replicate 14 0)[0]? = some (-(1:ℚ)/2) from rfl]
    simp only [Option.map_some']
    congr 1
    show (S16.getD (0 + 1) default).price / (S16.getD 0 default).price - 1 = -(1:ℚ)/2
    rw [S16_getD (0 + 1) (by omega), S16_getD 0 (by omega)]
    norm_num
  · by_cases hj : j + 1 < 15
    · rw [List.getElem?_range hj, List.getElem?_cons_succ, List.getElem?_replicate,
          if_pos (by omega : j < 14)]
      simp only [Option.map_some']
      congr 1
      show (S16.getD (j + 1 + 1) default).price / (S16.getD (j + 1) default).price - 1
        = (0 : ℚ)
      rw [S16_getD (j + 1 + 1) (by omega), S16_getD (j + 1) (by omega),
          if_neg (by omega : ¬ j + 1 + 1 = 0), if_neg (by omega : ¬ j + 1 = 0)]
      norm_num
    · rw [List.getElem?_eq_none (by rw [List.length_range]; omega),
          List.getElem?_eq_none (by
            simp only [List.length_cons, List.length_replicate]
            omega)]
      rfl

/-- What the code computes on the counterexample: a 15% Value-at-Risk. -/
lemma calculate_var_S16 : calculate_var S16 0.95 = 15 := by
  unfold calculate_var
  rw [if_neg (by rw [S16_length]; norm_num), returns_eq S16, specReturns_S16]
  simp only [List.length_cons, List.length_replicate]
  rw [if_neg (by norm_num), show (100:ℚ) * (1 - 0.95) = 5 by norm_num,
      percentile_S16_returns]
  norm_num

/-- What the claim's words predict on the counterexample: the trailing-14
returns are all zero, so a 0% Value-at-Risk. -/
lemma trailing_claim_var_S16 : trailing_claim_var S16 0.95 = 0 := by
  unfold trailing_claim_var
  rw [specReturns_S16]
  simp only [List.length_cons, List.length_replicate]
  rw [if_neg (by norm_num),
      show ((-(1:ℚ)/2) :: List.replicate 14 0).drop (14 + 1 - 14) = List.replicate 14 0
        from rfl,
      percentile_of_zeros (fun x hx => List.eq_of_mem_replicate hx)]
  norm_num

/-- The return column of the 2-point constant series: a leading `NaN` and one
zero return. -/
lemma pct_change_list_constSeries2 :
    pct_change_list (constSeries2.map (·.price)) = [none, some 0] := by
  show pct_change_list [100, 100] = [none, some 0]
  unfold pct_change_list pctChangeAt
  norm_num [List.range_succ]

/-- The 2-cell rolling column of the 2-point constant series is all `NaN`:
the complete window holds only one non-`NaN` return. -/
lemma rollingStatList_constSeries2 :
    rollingStatList 2 sampleVar [none, some 0] = [none, none] := rfl

/-- `calculate_volatility` on the 2-point constant series is `NaN`. -/
lemma calculate_volatility_constSeries2 : calculate_volatility constSeries2 = none := by
  unfold calculate_volatility
  rw [if_neg (by norm_num [constSeries2] : ¬ constSeries2.length < 2),
      pct_change_list_constSeries2,
      show min 14 constSeries2.length = 2 from rfl,
      rollingStatList_constSeries2]
  rfl

/-! ### Facts about the example-scenario series -/

lemma S60_map_price :
    S60.map (·.price) = (List.range 60).map (fun (i : ℕ) => 100 + (i : ℚ)) := by
  unfold S60
  rw [List.map_map]
  rfl

lemma S60_price_getD (i : ℕ) (hi : i < 60) :
    (S60.map (·.price)).getD i 0 = 100 + (i : ℚ) := by
  rw [S60_map_price, List.getD_eq_getElem?_getD, List.getElem?_map, List.getElem?_range hi]
  rfl

lemma S60_getD_ts (i : ℕ) (hi : i < 60) : (S60.getD i default).ts = (i : ℚ) := by
  unfold S60
  rw [List.getD_eq_getElem?_getD, List.getElem?_map, List.getElem?_range hi]
  rfl

lemma featRow_lags (cal : Calendar) (df : List PricePoint) (i : ℕ) :
    (featRow cal df i).lags =
      (List.range 24).map (fun k => (df.map (·.price)).getD (i - (k + 1)) 0) := rfl

lemma featRow_rm6 (cal : Calendar) (df : List PricePoint) (i : ℕ) :
    (featRow cal df i).rolling_mean_6h = windowStat 6 mean (df.map (·.price)) i := rfl

lemma toPredVec_lag1 (r : FeatureRow) : (toPredVec r).lag_1h = r.lags.getD 0 0 := rfl

/-- `lag_1h` of the example's last feature row: the price one hour back. -/
lemma S60_last_lag1 (cal : Calendar) : (featRow cal S60 59).lags.getD 0 0 = 158 := by
  rw [featRow_lags, List.getD_eq_getElem?_getD, List.getElem?_map,
      List.getElem?_range (by norm_num : (0:ℕ) < 24)]
  show (S60.map (·.price)).getD (59 - (0 + 1)) 0 = 158
  rw [show (59 - (0 + 1) : ℕ) = 58 from rfl, S60_price_getD 58 (by norm_num)]
  norm_num

/-- `rolling_mean_6h` of the example's last feature row: the mean of the six
prices 154..159, i.e. 156.5 = 313/2 (not the 154.5 the claim asserts). -/
lemma S60_last_rm6 (cal : Calendar) : (featRow cal S60 59).rolling_mean_6h = 313/2 := by
  rw [featRow_rm6]
  unfold windowStat
  rw [S60_map_price, ← List.map_take, List.take_range, Nat.min_self,
      ← List.map_drop, drop_range, List.map_map,
      show (60:ℕ) - 54 = 6 from rfl,
      show List.range 6 = [0, 1, 2, 3, 4, 5] from rfl]
  unfold mean
  simp only [List.map_cons, List.map_nil, Function.comp_apply]
  push_cast
  norm_num

/-- The specification's return list has one entry per consecutive pair. -/
lemma specReturns_length (df : List PricePoint) :
    (specReturns df).length = df.length - 1 := by
  unfold specReturns
  rw [List.length_map, List.length_range]

/-! ### The claims -/

/-- C1: for every valid price series (ascending timestamps, positive prices)
of length at least 25, `create_features` returns exactly `len - 24` rows,
its timestamp column being the input's timestamp column from position 24 on
(same ascending-time order); every row is a `FeatureRow`, all of whose
fields are plain defined values (the rows that survive the `dropna`). -/
theorem claim1_create_features_shape (cal : Calendar) (df : List PricePoint)
    (hlen : 25 ≤ df.length) (hpos : ∀ q ∈ df, 0 < q.price)
    (hsorted : List.Pairwise (· ≤ ·) (df.map PricePoint.ts)) :
    (create_features cal df).length = df.length - 24 ∧
    (create_features cal df).map FeatureRow.ts = (df.map PricePoint.ts).drop 24 :=
  ⟨create_features_length cal df, create_features_map_ts cal df⟩

/-- Witness for C1: the 25-point rising series. -/
theorem claim1_witness :
    (25 ≤ S25.length ∧ (∀ q ∈ S25, 0 < q.price) ∧
      List.Pairwise (· ≤ ·) (S25.map PricePoint.ts)) ∧
    ((create_features simpleCalendar S25).length = S25.length - 24 ∧
      (create_features simpleCalendar S25).map FeatureRow.ts
        = (S25.map PricePoint.ts).drop 24) := by
  have h1 : 25 ≤ S25.length := by rw [S25_length]
  have h2 : ∀ q ∈ S25, 0 < q.price := by
    intro q hq
    unfold S25 at hq
    obtain ⟨i, _, rfl⟩ := List.mem_map.mp hq
    show (0 : ℚ) < 100 + (i : ℚ)
    positivity
  have h3 : List.Pairwise (· ≤ ·) (S25.map PricePoint.ts) := by
    unfold S25
    rw [List.map_map]
    show List.Pairwise (· ≤ ·) ((List.range 25).map (fun (i : ℕ) => (i : ℚ)))
    exact List.pairwise_map.mpr ((List.pairwise_lt_range 25).imp
      (fun hab => by exact_mod_cast le_of_lt hab))
  exact ⟨⟨h1, h2, h3⟩, claim1_create_features_shape simpleCalendar S25 h1 h2 h3⟩

/-- C2: on every positive-price series of at least 50 points (training
succeeds on these) the forecaster returns exactly `PREDICTION_HOURS = 24`
forecast points whose timestamps are the anchor timestamp (the series' last
timestamp) plus 1, 2, ..., 24 hours: strictly increasing in steps of exactly
one hour, the first exactly one hour after the anchor. -/
theorem claim2_forecast_shape (cal : Calendar)
    (fit : List (PredVec × ℚ) → PredVec → ℚ) (df : List PricePoint)
    (hlen : 50 ≤ df.length) (hpos : ∀ q ∈ df, 0 < q.price) :
    ∃ last fps, df.getLast? = some last ∧
      train_model_and_predict cal fit df = some fps ∧
      fps.length = PREDICTION_HOURS ∧
      List.Chain' (fun a b => b.ts = a.ts + 1) fps ∧
      fps.map ForecastPoint.ts =
        (List.range PREDICTION_HOURS).map (fun k => last.ts + ((k : ℚ) + 1)) := by
  refine ⟨df.getD (df.length - 1) default,
    forecastLoop (fit ((List.range (df.length - 48)).map (trainPair cal df))) cal
      PREDICTION_HOURS ((featRow cal df (df.length - 1)).ts)
      (toPredVec (featRow cal df (df.length - 1))),
    ?_, train_eq cal fit df hlen, ?_, ?_, ?_⟩
  · rw [List.getLast?_eq_getElem?, getElem?_eq_getD df (df.length - 1) (by omega)]
  · rw [forecastLoop_eq, List.length_map, List.length_range]
  · rw [forecastLoop_eq, List.chain'_map,
        show PREDICTION_HOURS = 23 + 1 from rfl, List.chain'_range_succ]
    intro m hm
    show (featRow cal df (df.length - 1)).ts + (((m + 1 : ℕ) : ℚ) + 1)
      = (featRow cal df (df.length - 1)).ts + ((m : ℚ) + 1) + 1
    push_cast
    ring
  · rw [forecastLoop_eq, List.map_map]
    rfl

/-- Witness for C2: the 60-point rising series, a concrete calendar and a
concrete fitted model. -/
theorem claim2_witness :
    (50 ≤ S60.length ∧ ∀ q ∈ S60, 0 < q.price) ∧
    (∃ last fps, S60.getLast? = some last ∧
      train_model_and_predict simpleCalendar meanFit S60 = some fps ∧
      fps.length = PREDICTION_HOURS ∧
      List.Chain' (fun a b => b.ts = a.ts + 1) fps ∧
      fps.map ForecastPoint.ts =
        (List.range PREDICTION_HOURS).map (fun k => last.ts + ((k : ℚ) + 1))) := by
  have h1 : 50 ≤ S60.length := by rw [S60_length]; norm_num
  have h2 : ∀ q ∈ S60, 0 < q.price := by
    intro q hq
    unfold S60 at hq
    obtain ⟨i, _, rfl⟩ := List.mem_map.mp hq
    show (0 : ℚ) < 100 + (i : ℚ)
    positivity
  exact ⟨⟨h1, h2⟩, claim2_forecast_shape simpleCalendar meanFit S60 h1 h2⟩

/-- C3: in every iteration of the 24-step forecasting loop the feature
vector fed to the model is the anchor vector with exactly its six
calendar-derived entries recomputed from the advanced timestamp; the lag,
rolling-mean, volatility and relative-change entries are the anchor's,
unchanged, in all 24 iterations. -/
theorem claim3_calendar_only_frame (model : PredVec → ℚ) (cal : Calendar)
    (t0 : ℚ) (cd : PredVec) :
    forecastLoop model cal PREDICTION_HOURS t0 cd =
      (List.range PREDICTION_HOURS).map (fun k =>
        { ts := t0 + ((k : ℚ) + 1),
          predicted_price :=
            model (updateCalendarFields cal (t0 + ((k : ℚ) + 1)) cd) }) ∧
    ∀ t : ℚ,
      (updateCalendarFields cal t cd).hour = cal.hour t ∧
      (updateCalendarFields cal t cd).dayofweek = cal.dayofweek t ∧
      (updateCalendarFields cal t cd).quarter = cal.quarter t ∧
      (updateCalendarFields cal t cd).month = cal.month t ∧
      (updateCalendarFields cal t cd).dayofyear = cal.dayofyear t ∧
      (updateCalendarFields cal t cd).dayofmonth = cal.dayofmonth t ∧
      (updateCalendarFields cal t cd).lag_1h = cd.lag_1h ∧
      (updateCalendarFields cal t cd).lag_12h = cd.lag_12h ∧
      (updateCalendarFields cal t cd).lag_24h = cd.lag_24h ∧
      (updateCalendarFields cal t cd).rolling_mean_6h = cd.rolling_mean_6h ∧
      (updateCalendarFields cal t cd).rolling_mean_12h = cd.rolling_mean_12h ∧
      (updateCalendarFields cal t cd).rolling_mean_24h = cd.rolling_mean_24h ∧
      (updateCalendarFields cal t cd).volatility_24h = cd.volatility_24h ∧
      (updateCalendarFields cal t cd).price_change_1h = cd.price_change_1h ∧
      (updateCalendarFields cal t cd).price_change_12h = cd.price_change_12h ∧
      (updateCalendarFields cal t cd).price_change_24h = cd.price_change_24h :=
  ⟨forecastLoop_eq model cal PREDICTION_HOURS t0 cd,
   fun _ => ⟨rfl, rfl, rfl, rfl, rfl, rfl, rfl, rfl, rfl, rfl, rfl, rfl, rfl, rfl,
     rfl, rfl⟩⟩

/-- Counterexample for C4: on the 16-point series with a single initial 50%
drop, the code returns 15% (the 5th percentile of ALL 15 returns,
interpolated between -1/2 and 0), while the claim's trailing-14-return
percentile is 0%. -/
theorem claim4_counterexample :
    calculate_var S16 0.95 = 15 ∧ trailing_claim_var S16 0.95 = 0 ∧ (15 : ℚ) ≠ 0 :=
  ⟨calculate_var_S16, trailing_claim_var_S16, by norm_num⟩

/-- C4 amended: `calculate_var` returns the `100 (1-c)`-th percentile of the
FULL return distribution of the series (all `len - 1` returns, not the
trailing window), sign-flipped to a positive percentage; it returns 0
exactly when the series has fewer than `window = 14` points — with exactly
`window` points only `window - 1` returns exist, yet the code still computes
the percentile. -/
theorem claim4_var_full_distribution (df : List PricePoint) (c : ℚ)
    (hpos : ∀ q ∈ df, 0 < q.price) :
    calculate_var df c =
      if df.length < 14 then 0
      else |percentile (specReturns df) (100 * (1 - c)) * 100| := by
  unfold calculate_var
  by_cases hlen : df.length < 14
  · rw [if_pos hlen, if_pos hlen]
  · rw [if_neg hlen, if_neg hlen, returns_eq df,
        if_neg (by rw [specReturns_length]; omega)]

/-- Witness for C4 (amended) at the 16-point drop series. -/
theorem claim4_witness :
    (∀ q ∈ S16, 0 < q.price) ∧
    calculate_var S16 0.99 =
      (if S16.length < 14 then 0
       else |percentile (specReturns S16) (100 * (1 - 0.99)) * 100|) := by
  have hpos : ∀ q ∈ S16, 0 < q.price := by
    intro q hq
    unfold S16 at hq
    obtain ⟨i, _, rfl⟩ := List.mem_map.mp hq
    show (0 : ℚ) < if i = 0 then 100 else 50
    split <;> norm_num
  exact ⟨hpos, claim4_var_full_distribution S16 0.99 hpos⟩

/-- Counterexample for C5: on the constant 2-point series the rolling
standard deviation's only complete window contains the leading `NaN` return,
so `calculate_volatility` is `NaN` (`none`), not 0. -/
theorem claim5_counterexample :
    calculate_volatility constSeries2 ≠ some 0 ∧
    calculate_volatility constSeries2 = none ∧
    2 ≤ constSeries2.length ∧ (∀ q ∈ constSeries2, q.price = 100) := by
  refine ⟨?_, calculate_volatility_constSeries2, by norm_num [constSeries2], ?_⟩
  · rw [calculate_volatility_constSeries2]
    simp
  · intro q hq
    fin_cases hq <;> rfl

/-- C5 amended: on every constant-price series of at least `window + 1 = 15`
points (so that the trailing 14-return window clears the leading `NaN`),
annualized volatility is 0 and the Value-at-Risk is 0 at both confidences;
for constant series of 2..14 points the volatility is `NaN` instead (the
counterexample), though both VaR values are still 0. -/
theorem claim5_constant_risk (df : List PricePoint) (p : ℚ) (hp : 0 < p)
    (hconst : ∀ q ∈ df, q.price = p) (hlen : 15 ≤ df.length) :
    calculate_volatility df = some 0 ∧
    calculate_var df 0.95 = 0 ∧ calculate_var df 0.99 = 0 :=
  ⟨calculate_volatility_const df p (ne_of_gt hp) hconst hlen,
   calculate_var_const df p (ne_of_gt hp) 0.95 hconst hlen,
   calculate_var_const df p (ne_of_gt hp) 0.99 hconst hlen⟩

/-- Witness for C5 (amended) at the constant 15-point series. -/
theorem claim5_witness :
    ((0 : ℚ) < 100 ∧ (∀ q ∈ constSeries15, q.price = 100) ∧
      15 ≤ constSeries15.length) ∧
    (calculate_volatility constSeries15 = some 0 ∧
     calculate_var constSeries15 0.95 = 0 ∧ calculate_var constSeries15 0.99 = 0) := by
  have hp : (0 : ℚ) < 100 := by norm_num
  have hconst : ∀ q ∈ constSeries15, q.price = 100 := by
    intro q hq
    unfold constSeries15 at hq
    obtain ⟨i, _, rfl⟩ := List.mem_map.mp hq
    rfl
  have hlen : 15 ≤ constSeries15.length := by
    unfold constSeries15
    rw [List.length_map, List.length_range]
  exact ⟨⟨hp, hconst, hlen⟩, claim5_constant_risk constSeries15 100 hp hconst hlen⟩

/-- Counterexample for C6: on a 24-point series `create_features` does not
signal any error — it returns normally, with the empty feature table. -/
theorem claim6_counterexample :
    S24.length < 25 ∧ create_features simpleCalendar S24 = [] := by
  constructor
  · rw [S24_length]
    norm_num
  · rw [create_features_eq, show S24.length - 24 = 0 by rw [S24_length]]
    rfl

/-- C6 amended: for every series of fewer than 25 points `create_features`
returns normally with a feature table of 0 rows (the final `dropna` removes
every row); no `InsufficientHistory` error exists in the code. -/
theorem claim6_short_series_zero_rows (cal : Calendar) (df : List PricePoint)
    (h : df.length < 25) :
    (create_features cal df).length = 0 := by
  rw [create_features_length]
  omega

/-- Witness for C6 (amended) at the 24-point series. -/
theorem claim6_witness :
    S24.length < 25 ∧ (create_features simpleCalendar S24).length = 0 := by
  have h : S24.length < 25 := by
    rw [S24_length]
    norm_num
  exact ⟨h, claim6_short_series_zero_rows simpleCalendar S24 h⟩

/-- C7: on every series of fewer than 50 points `train_model_and_predict`
returns the no-result value (`None, None`, here `none`); the embedding is a
total function, so no exception is raised. -/
theorem claim7_short_series_unavailable (cal : Calendar)
    (fit : List (PredVec × ℚ) → PredVec → ℚ) (df : List PricePoint)
    (h : df.length < 50) :
    train_model_and_predict cal fit df = none := by
  unfold train_model_and_predict
  rw [if_pos (Or.inr h)]

/-- Witness for C7 at the 10-point series. -/
theorem claim7_witness :
    S10.length < 50 ∧ train_model_and_predict simpleCalendar meanFit S10 = none := by
  have h : S10.length < 50 := by
    rw [S10_length]
    norm_num
  exact ⟨h, claim7_short_series_unavailable simpleCalendar meanFit S10 h⟩

/-- Counterexample for C8: in the example scenario (60 points rising 100..159)
the last feature row's `rolling_mean_6h` is the mean of the prices 154..159,
namely 156.5 = 313/2 — not the 154.5 = 309/2 the claim asserts. -/
theorem claim8_counterexample :
    (create_features simpleCalendar S60).getLast?.map FeatureRow.rolling_mean_6h
      = some (313 / 2) ∧ ((313 : ℚ) / 2) ≠ 309 / 2 := by
  constructor
  · rw [create_features_getLast simpleCalendar S60 (by rw [S60_length]; norm_num),
        show S60.length - 1 = 59 by rw [S60_length]]
    simp only [Option.map_some']
    rw [S60_last_rm6]
  · norm_num

/-- C8 amended: on the 60-point series rising linearly 100..159,
`create_features` yields exactly 36 rows; the last row's `lag_1h` is 158 and
its `rolling_mean_6h` is the mean of the last 6 prices, 156.5 (the claim's
figure 154.5 is a slip); 12 training examples (rows with a valid 24-ahead
target, the anchor excluded) remain; and the forecaster proceeds to produce
exactly 24 forecast points. -/
theorem claim8_example_scenario (cal : Calendar)
    (fit : List (PredVec × ℚ) → PredVec → ℚ) :
    (create_features cal S60).length = 36 ∧
    (∃ r, (create_features cal S60).getLast? = some r ∧
      (toPredVec r).lag_1h = 158 ∧ r.rolling_mean_6h = 313 / 2) ∧
    (∃ X rest, prepare_prediction_data cal S60 = some (X, rest) ∧ X.length = 12) ∧
    (∃ fps, train_model_and_predict cal fit S60 = some fps ∧ fps.length = 24) := by
  have h60 : (50 : ℕ) ≤ S60.length := by
    rw [S60_length]
    norm_num
  refine ⟨?_, ?_, ?_, ?_⟩
  · rw [create_features_length, S60_length]
  · refine ⟨featRow cal S60 59, ?_, ?_, ?_⟩
    · rw [create_features_getLast cal S60 (by rw [S60_length]; norm_num),
          show S60.length - 1 = 59 by rw [S60_length]]
    · rw [toPredVec_lag1, S60_last_lag1]
    · rw [S60_last_rm6]
  · refine ⟨(List.range (S60.length - 48)).map (trainPair cal S60), _,
      prepare_eq cal S60 h60, ?_⟩
    rw [List.length_map, List.length_range, S60_length]
  · refine ⟨_, train_eq cal fit S60 h60, ?_⟩
    rw [forecastLoop_eq, List.length_map, List.length_range]
    rfl

/-- C9: with at least 50 positive-price points the length guard passes, the
feature table has `len - 24 ≥ 26` rows, `len - 48 ≥ 2` of them keep a
defined 24-ahead target after excluding the anchor, so the empty-training-set
branch (`df_train.empty`, the `NoTrainableRows` case) is unreachable and
`train_model_and_predict` returns a non-`None` result. -/
theorem claim9_train_branch_unreachable (cal : Calendar)
    (fit : List (PredVec × ℚ) → PredVec → ℚ) (df : List PricePoint)
    (h50 : 50 ≤ df.length) (hpos : ∀ q ∈ df, 0 < q.price) :
    ∃ X Xr lastTs dfF,
      prepare_prediction_data cal df = some (X, Xr, lastTs, dfF) ∧
      dfF.length = df.length - 24 ∧
      X.length = df.length - 48 ∧
      2 ≤ X.length ∧
      (train_model_and_predict cal fit df).isSome = true := by
  refine ⟨_, _, _, _, prepare_eq cal df h50, create_features_length cal df, ?_, ?_, ?_⟩
  · rw [List.length_map, List.length_range]
  · rw [List.length_map, List.length_range]
    omega
  · rw [train_eq cal fit df h50]
    rfl

/-- Witness for C9 at the 60-point rising series. -/
theorem claim9_witness :
    (50 ≤ S60.length ∧ ∀ q ∈ S60, 0 < q.price) ∧
    (∃ X Xr lastTs dfF,
      prepare_prediction_data simpleCalendar S60 = some (X, Xr, lastTs, dfF) ∧
      dfF.length = S60.length - 24 ∧
      X.length = S60.length - 48 ∧
      2 ≤ X.length ∧
      (train_model_and_predict simpleCalendar meanFit S60).isSome = true) := by
  have h1 : 50 ≤ S60.length := by
    rw [S60_length]
    norm_num
  have h2 : ∀ q ∈ S60, 0 < q.price := by
    intro q hq
    unfold S60 at hq
    obtain ⟨i, _, rfl⟩ := List.mem_map.mp hq
    show (0 : ℚ) < 100 + (i : ℚ)
    positivity
  exact ⟨⟨h1, h2⟩, claim9_train_branch_unreachable simpleCalendar meanFit S60 h1 h2⟩

/-- C10: on every series of fewer than 25 points `create_features` returns
the empty feature table — the final `NaN` filter removes every row — and,
being a total function, raises nothing; the empty table is the only signal
at the interface. -/
theorem claim10_short_series_empty_table (cal : Calendar) (df : List PricePoint)
    (h : df.length < 25) :
    create_features cal df = [] := by
  rw [create_features_eq, show df.length - 24 = 0 by omega]
  rfl

/-- Witness for C10 at the 10-point series. -/
theorem claim10_witness :
    S10.length < 25 ∧ create_features simpleCalendar S10 = [] := by
  have h : S10.length < 25 := by
    rw [S10_length]
    norm_num
  exact ⟨h, claim10_short_series_empty_table simpleCalendar S10 h⟩

end Dashboard
